import Mathlib

/-!
Verification development for the routeflare DNS reconciliation controller.

The Go sources are embedded shallowly:
* `GoNet` models the Go standard library `net.ParseIP` / `IP.To4` pair
  (netip.ParseAddr parsing algorithm, value-level, executable), which the
  controller helpers `isIPv4` / `isIPv6` in `pkg/controller/controller.go`
  are built on.
* `CF` embeds the ownership-aware Cloudflare client (`DNSRecord` with the
  `Comment` owner marker, `FindRecord`, private `createRecord` and
  `updateRecord`, `UpsertRecord`, `DeleteRecord`).  Provider state is the
  list of records of the zone; each remote mutation issued by the client is
  recorded in an explicit `Mutation` trace, so "no provider-side mutation"
  is the trace being empty and the state unchanged.
* `Ctrl` embeds the controller (`pkg/controller`): annotation extraction,
  zone derivation, the record fan-out `createOrUpdateRecords`, the two
  content-mode processors, route processing and deletion handling.  Network
  collaborators (zone-ID lookup, the ddns detector, the gateway address
  pipeline, upsert/delete outcomes) are environment oracles in `Env`;
  provider interactions are recorded in a `ProviderCall` trace.
* `DDNS` embeds the public-address detector (`pkg/ddns`), with the raw
  answer of each lookup endpoint supplied as an `Option String`
  (`none` models transport/status failure).
-/

namespace GoNet

/-- Decimal digit value of a character, as used by the Go IPv4 parser. -/
def digitVal (c : Char) : Option Nat :=
  if 48 ≤ c.toNat ∧ c.toNat ≤ 57 then some (c.toNat - 48) else none

/-- Hex digit value of a character, as used by the Go IPv6 parser. -/
def hexVal (c : Char) : Option Nat :=
  if 48 ≤ c.toNat ∧ c.toNat ≤ 57 then some (c.toNat - 48)
  else if 97 ≤ c.toNat ∧ c.toNat ≤ 102 then some (c.toNat - 87)
  else if 65 ≤ c.toNat ∧ c.toNat ≤ 70 then some (c.toNat - 55)
  else none

/-- Go `netip.parseIPv4`: four dot-separated decimal octets, each `0..255`,
no leading zeros, no other characters.  `fields`, `val`, `digLen` mirror the
parser state; returns the four octets. -/
def parseIPv4Go : List Char → List Nat → Nat → Nat → Option (List Nat)
  | [], fields, val, _ =>
    if fields.length < 3 then none else some (fields ++ [val])
  | c :: rest, fields, val, digLen =>
    match digitVal c with
    | some d =>
      if digLen = 1 ∧ val = 0 then none
      else
        let val := val * 10 + d
        if val > 255 then none
        else parseIPv4Go rest fields val (digLen + 1)
    | none =>
      if c = '.' then
        if digLen = 0 then none
        else if rest = [] then none
        else if fields.length = 3 then none
        else parseIPv4Go rest (fields ++ [val]) 0 0
      else none

/-- One colon-separated hex field of an IPv6 address: accumulated value,
number of digits consumed, rest of the input; `none` on a field `≥ 2^16`. -/
def parseHexGroup : List Char → Nat → Nat → Option (Nat × Nat × List Char)
  | [], acc, off => some (acc, off, [])
  | c :: rest, acc, off =>
    match hexVal c with
    | none => some (acc, off, c :: rest)
    | some v =>
      let acc := acc * 16 + v
      if acc > 65535 then none
      else parseHexGroup rest acc (off + 1)

/-- Main loop of Go `netip.parseIPv6`: consumes hex fields separated by `:`,
tracking the bytes laid down so far (`ip`), the `::` position (`ell`) and the
rest of the input; handles an embedded IPv4 trailer.  `fuel` bounds the
iteration count (each iteration lays down at least two bytes, so 16 is ample). -/
def parseIPv6Loop : Nat → List Char → List Nat → Option Nat → Option (List Nat × Option Nat × List Char)
  | fuel, s, ip, ell =>
    if 16 ≤ ip.length then some (ip, ell, s)
    else
      match fuel with
      | 0 => none
      | fuel + 1 =>
        match parseHexGroup s 0 0 with
        | none => none
        | some (acc, off, rest) =>
          if off = 0 then none
          else if rest.head? = some '.' then
            if ell = none ∧ ip.length ≠ 12 then none
            else if 16 < ip.length + 4 then none
            else
              match parseIPv4Go s [] 0 0 with
              | none => none
              | some b4 => some (ip ++ b4, ell, [])
          else
            let ip := ip ++ [acc / 256, acc % 256]
            match rest with
            | [] => some (ip, ell, [])
            | ':' :: [] => none
            | ':' :: ':' :: rest2 =>
              if ell.isSome then none
              else if rest2 = [] then some (ip, some ip.length, [])
              else parseIPv6Loop fuel rest2 ip (some ip.length)
            | ':' :: rest2 => parseIPv6Loop fuel rest2 ip ell
            | _ => none

/-- Post-loop processing of `netip.parseIPv6`: rejects trailing input,
expands the `::` into the zero bytes it stands for, and rejects a `::`
that would expand to nothing. -/
def parseIPv6Finish : Option (List Nat × Option Nat × List Char) → Option (List Nat)
  | none => none
  | some (ip, ell, rem) =>
    if rem ≠ [] then none
    else if ip.length < 16 then
      match ell with
      | none => none
      | some e => some (ip.take e ++ List.replicate (16 - ip.length) 0 ++ ip.drop e)
    else
      match ell with
      | some _ => none
      | none => some ip

/-- Go `netip.parseIPv6` (zone suffixes rejected, as `net.ParseIP` rejects
any nonempty zone): 16 address bytes. -/
def parseIPv6Go (s : List Char) : Option (List Nat) :=
  if s.contains '%' then none
  else
    match s with
    | ':' :: ':' :: rest =>
      if rest = [] then some (List.replicate 16 0)
      else parseIPv6Finish (parseIPv6Loop 16 rest [] (some 0))
    | _ => parseIPv6Finish (parseIPv6Loop 16 s [] none)

/-- The 16-byte (IPv4-mapped) form of four IPv4 octets, as produced by
`netip.Addr.As16`. -/
def v4To16 (b4 : List Nat) : List Nat :=
  [0, 0, 0, 0, 0, 0, 0, 0, 0, 0, 255, 255] ++ b4

/-- Dispatch of Go `netip.ParseAddr`: scan for the first `.` / `:` / `%`
and parse accordingly; `full` is the whole input, the second argument the
scanning remainder. -/
def goParseIPAux (full : List Char) : List Char → Option (List Nat)
  | [] => none
  | c :: rest =>
    if c = '.' then (parseIPv4Go full [] 0 0).map v4To16
    else if c = ':' then parseIPv6Go full
    else if c = '%' then none
    else goParseIPAux full rest

/-- Go `net.ParseIP`: `none` on failure, otherwise the 16 address bytes. -/
def goParseIP (s : String) : Option (List Nat) :=
  goParseIPAux s.toList s.toList

/-- Go `net.IP.To4` on a 16-byte address: the four IPv4 octets when the
address is IPv4-mapped, `none` otherwise. -/
def to4 (b : List Nat) : Option (List Nat) :=
  if b.take 12 = [0, 0, 0, 0, 0, 0, 0, 0, 0, 0, 255, 255] then some (b.drop 12)
  else none

end GoNet

/-- `isIPv4` from `pkg/controller/controller.go`: the string parses as an IP
and `To4` is non-nil. -/
def isIPv4 (ip : String) : Bool :=
  match GoNet.goParseIP ip with
  | some b => (GoNet.to4 b).isSome
  | none => false

/-- `isIPv6` from `pkg/controller/controller.go`: the string parses as an IP
and `To4` is nil. -/
def isIPv6 (ip : String) : Bool :=
  match GoNet.goParseIP ip with
  | some b => (GoNet.to4 b).isNone
  | none => false

/-- Go `strconv.Atoi` (base 10, 64-bit): optional sign, at least one digit,
all digits, value within the signed 64-bit range; `none` on any error. -/
def goAtoi (s : String) : Option Int :=
  let p := match s.toList with
    | '+' :: rest => (false, rest)
    | '-' :: rest => (true, rest)
    | rest => (false, rest)
  if p.2 = [] then none
  else if p.2.all (fun c => 48 ≤ c.toNat ∧ c.toNat ≤ 57) then
    let n : Nat := p.2.foldl (fun a c => a * 10 + (c.toNat - 48)) 0
    let v : Int := if p.1 then -(n : Int) else (n : Int)
    if v < -(2 ^ 63 : Int) ∨ (2 ^ 63 - 1 : Int) < v then none else some v
  else none

/-- `ParseTTL` from the Cloudflare client package: empty or `auto` means the
auto TTL 1; otherwise parse an integer, clamping values below 1 up to 1, and
fail on unparsable input. -/
def ParseTTL (ttlStr : String) : Except String Int :=
  if ttlStr = "" ∨ ttlStr = "auto" then .ok 1
  else
    match goAtoi ttlStr with
    | none => .error ("invalid TTL: " ++ ttlStr)
    | some ttl => if ttl < 1 then .ok 1 else .ok ttl

/-- `ParseProxied` from the Cloudflare client package: empty means `false`,
otherwise Go `strconv.ParseBool` (eight literal forms), error on anything
else. -/
def ParseProxied (proxiedStr : String) : Except String Bool :=
  if proxiedStr = "" then .ok false
  else if proxiedStr = "1" ∨ proxiedStr = "t" ∨ proxiedStr = "T" ∨
      proxiedStr = "TRUE" ∨ proxiedStr = "true" ∨ proxiedStr = "True" then .ok true
  else if proxiedStr = "0" ∨ proxiedStr = "f" ∨ proxiedStr = "F" ∨
      proxiedStr = "FALSE" ∨ proxiedStr = "false" ∨ proxiedStr = "False" then .ok false
  else .error ("invalid proxied value: " ++ proxiedStr ++ " (must be true or false)")

/-- The TTL the controller actually uses (`processHTTPRoute`, the `ParseTTL`
call site): a parse error is logged and degraded to the auto default 1. -/
def derivedTTL (s : String) : Int :=
  match ParseTTL s with
  | .ok t => t
  | .error _ => 1

/-- The proxied flag the controller actually uses (`processHTTPRoute`, the
`ParseProxied` call site): a parse error is logged and degraded to `false`. -/
def derivedProxied (s : String) : Bool :=
  match ParseProxied s with
  | .ok b => b
  | .error _ => false

namespace CF

/-- `DNSRecord` of the ownership-aware Cloudflare client
(`src/unnamed/part_000`): the `comment` field is the owner marker. -/
structure DNSRecord where
  id : String
  type : String
  name : String
  content : String
  ttl : Int
  proxied : Bool
  comment : String
deriving DecidableEq

/-- A provider-side mutation issued by the client: one Cloudflare
create/update/delete API call. -/
inductive Mutation where
  | create (r : DNSRecord)
  | update (r : DNSRecord)
  | delete (id : String)
deriving DecidableEq

/-- `FindRecord`: first record of the zone state matching name and type
(`none` is "not found", not an error). -/
def findRecord (st : List DNSRecord) (name ty : String) : Option DNSRecord :=
  (st.filter (fun r => r.name == name && r.type == ty)).head?

/-- The ownership-conflict error message of `UpsertRecord`/`DeleteRecord`. -/
def ownershipConflictMsg (existingOwner expectedOwner : String) : String :=
  "record ownership conflict: existing owner " ++ existingOwner ++
    " does not match expected owner " ++ expectedOwner

/-- Private `createRecord`: create with the desired fields, including the
owner marker; `freshId` is the record ID the provider allocates.  Result,
new zone state, issued mutations. -/
def createRecord (st : List DNSRecord) (freshId : String) (record : DNSRecord) :
    Except String DNSRecord × List DNSRecord × List Mutation :=
  let created := { record with id := freshId }
  (.ok created, st ++ [created], [.create created])

/-- Private `updateRecord`: adopt the current record ID, skip the remote
call when every field (Go struct equality, so the owner marker included) is
already up to date, otherwise issue the update. -/
def updateRecord (st : List DNSRecord) (currentRecord record : DNSRecord) :
    Except String DNSRecord × List DNSRecord × List Mutation :=
  let record := { record with id := currentRecord.id }
  if currentRecord = record then (.ok record, st, [])
  else (.ok record, st.map (fun r => if r.id == record.id then record else r), [.update record])

/-- `UpsertRecord` with ownership checking: a found record whose owner
marker is nonempty and different fails with an ownership conflict and no
mutation; else update (no-op when equal) or create. -/
def UpsertRecord (st : List DNSRecord) (freshId : String) (record : DNSRecord) :
    Except String DNSRecord × List DNSRecord × List Mutation :=
  match findRecord st record.name record.type with
  | some existing =>
    if existing.comment ≠ "" ∧ existing.comment ≠ record.comment then
      (.error (ownershipConflictMsg existing.comment record.comment), st, [])
    else updateRecord st existing record
  | none => createRecord st freshId record

/-- `DeleteRecord` with ownership checking: re-find by name/type (absence is
a no-op), fail with an ownership conflict when the owner marker is nonempty
and different, otherwise delete by the found ID. -/
def DeleteRecord (st : List DNSRecord) (record : DNSRecord) :
    Except String Unit × List DNSRecord × List Mutation :=
  match findRecord st record.name record.type with
  | some existing =>
    if existing.comment ≠ "" ∧ existing.comment ≠ record.comment then
      (.error (ownershipConflictMsg existing.comment record.comment), st, [])
    else (.ok (), st.filter (fun r => r.id != existing.id), [.delete existing.id])
  | none => (.ok (), st, [])

end CF

namespace DDNS

/-- `getPublicIP` from `pkg/ddns`: `answer` is the body returned by the
lookup endpoint (`none` models request/transport/status failure).  The body
must parse as an IP literal of the requested family, otherwise the query is
treated as failed. -/
def getPublicIP (answer : Option String) (ipType : String) : Except String String :=
  match answer with
  | none => .error ("error getting " ++ ipType ++ " address")
  | some body =>
    match GoNet.goParseIP body with
    | none => .error ("invalid IP address received: " ++ body)
    | some ip =>
      if ipType = "IPv4" ∧ (GoNet.to4 ip).isNone then
        .error ("expected IPv4 but got IPv6: " ++ body)
      else if ipType = "IPv6" ∧ (GoNet.to4 ip).isSome then
        .error ("expected IPv6 but got IPv4: " ++ body)
      else .ok body

/-- `GetPublicIPv4`: the IPv4-only endpoint query. -/
def GetPublicIPv4 (a4 : Option String) : Except String String :=
  getPublicIP a4 "IPv4"

/-- `GetPublicIPv6`: the IPv6-only endpoint query. -/
def GetPublicIPv6 (a6 : Option String) : Except String String :=
  getPublicIP a6 "IPv6"

/-- `GetPublicIPs`: try IPv4 then IPv6, collecting the successes in that
order; fail only when both legs failed. -/
def GetPublicIPs (a4 a6 : Option String) : Except String (List String) :=
  let ips : List String := []
  let ips := match GetPublicIPv4 a4 with
    | .ok ipv4 => ips ++ [ipv4]
    | .error _ => ips
  let ips := match GetPublicIPv6 a6 with
    | .ok ipv6 => ips ++ [ipv6]
    | .error _ => ips
  if ips = [] then .error "could not detect any public IP addresses"
  else .ok ips

/-- `GetPublicIPsByType`: dispatch on the record type. -/
def GetPublicIPsByType (a4 a6 : Option String) (recordType : String) :
    Except String (List String) :=
  if recordType = "A" then
    match GetPublicIPv4 a4 with
    | .ok ip => .ok [ip]
    | .error e => .error e
  else if recordType = "AAAA" then
    match GetPublicIPv6 a6 with
    | .ok ip => .ok [ip]
    | .error e => .error e
  else if recordType = "A/AAAA" then GetPublicIPs a4 a6
  else .error ("unsupported record type: " ++ recordType)

/-- Characterization helper: the list contributed by one leg (one element on
success, empty on failure). -/
def legResult (answer : Option String) (ipType : String) : List String :=
  match getPublicIP answer ipType with
  | .ok ip => [ip]
  | .error _ => []

/-- Boolean success test for an `Except`. -/
def isOkB {α : Type} : Except String α → Bool
  | .ok _ => true
  | .error _ => false

end DDNS

namespace Ctrl

/-- `DNSRecord` of the Cloudflare client version used by this controller
(`src/pkg/cloudflare/client.go`): no owner-marker field.  The controller
constructs records with the ID left at its zero value. -/
structure DNSRecord where
  id : String
  type : String
  name : String
  content : String
  ttl : Int
  proxied : Bool
deriving DecidableEq

/-- One network interaction of the controller with the DNS provider. -/
inductive ProviderCall where
  | zoneLookup (zoneName : String)
  | upsert (zoneID : String) (record : DNSRecord)
  | findRec (zoneID : String) (name : String) (ty : String)
  | deleteRec (zoneID : String) (id : String)
deriving DecidableEq

/-- `trackedRoute` from `pkg/controller/controller.go` (`nspace` stands for
the Go field `namespace`, a Lean keyword). -/
structure TrackedRoute where
  contentMode : String
  nspace : String
  name : String
  zoneName : String
  recordName : String
  recordType : String
  ttl : Int
  proxied : Bool
  lastIPs : List String
  gatewayNamespace : String
  gatewayName : String
deriving DecidableEq

/-- The tracked-route store `c.trackedRoutes`, keyed by `namespace/name`. -/
abbrev TrackedMap := String → Option TrackedRoute

/-- Map write `c.trackedRoutes[key] = tr`. -/
def TrackedMap.update (m : TrackedMap) (k : String) (v : TrackedRoute) : TrackedMap :=
  fun q => if q = k then some v else m q

/-- Map delete `delete(c.trackedRoutes, key)`. -/
def TrackedMap.remove (m : TrackedMap) (k : String) : TrackedMap :=
  fun q => if q = k then none else m q

/-- Environment oracles for the controller's network collaborators:
`zoneID` models `GetZoneIDByName` (`none` is an error), `upsertFails`
whether a given `UpsertRecord` call fails, `ddnsIPs` the detector result,
`gatewayIPs` the outcome of the parentRef/Gateway/`GetGatewayAddresses`
pipeline, `findRec` the `FindRecord` outcome (outer `none` is a lookup
error, inner the found record), `deleteFails` whether a `DeleteRecord`
call fails. -/
structure Env where
  zoneID : String → Option String
  upsertFails : String → DNSRecord → Bool
  ddnsIPs : Option (List String)
  gatewayIPs : Option (List String)
  findRec : String → String → String → Option (Option DNSRecord)
  deleteFails : String → Bool

/-- The record literal the fan-out builds for one upsert. -/
def mkRecord (ty nm content : String) (ttl : Int) (proxied : Bool) : DNSRecord :=
  ⟨"", ty, nm, content, ttl, proxied⟩

/-- `ipsEqual` from `pkg/controller/controller.go`: length check, then
element-wise comparison. -/
def ipsEqual (a b : List String) : Bool :=
  if a.length ≠ b.length then false
  else (List.zip a b).all (fun p => p.1 == p.2)

/-- Go `strings.Split` on the dot separator (accumulator holds the current
field reversed). -/
def splitDotAux : List Char → List Char → List String
  | [], cur => [String.mk cur.reverse]
  | c :: rest, cur =>
    if c = '.' then String.mk cur.reverse :: splitDotAux rest []
    else splitDotAux rest (c :: cur)

/-- `extractZoneFromRecordName`: the zone is the last two dot-separated
labels; fewer than two labels is an error (`none`). -/
def extractZoneFromRecordName (recordName : String) : Option String :=
  let parts := splitDotAux recordName.toList []
  if parts.length < 2 then none
  else some (String.intercalate "." (parts.drop (parts.length - 2)))

/-- Strip a literal character-list pattern from the front of a string,
`none` when it is not in front (Go `strings.HasPrefix` + `TrimPrefix`). -/
def stripPref : List Char → List Char → Option (List Char)
  | [], s => some s
  | _ :: _, [] => none
  | p :: ps, c :: cs => if p = c then stripPref ps cs else none

/-- `extractRouteflareAnnotations`: keep the keys carrying the
`routeflare/` marker, stripped of it. -/
def extractRouteflareAnnotations (anns : List (String × String)) : List (String × String) :=
  anns.filterMap (fun kv =>
    match stripPref "routeflare/".toList kv.1.toList with
    | some rest => some (String.mk rest, kv.2)
    | none => none)

/-- `ShouldDelete` from `pkg/config`: records are deleted only under the
`full` strategy. -/
def shouldDelete (strategy : String) : Bool :=
  strategy == "full"

/-- The `A/AAAA` arm of `createOrUpdateRecords`: classify each address,
skip invalid ones, upsert the single-type record, count a family as created
only when the upsert succeeded, and break once both families succeeded.
Returns the issued upsert calls in order. -/
def dualLoop (env : Env) (zoneID recordName : String) (ttl : Int) (proxied : Bool) :
    List String → Bool → Bool → List ProviderCall
  | [], _, _ => []
  | ip :: rest, createdIPv4, createdIPv6 =>
    let rt0 := if isIPv6 ip then "AAAA" else ""
    let rt := if isIPv4 ip then "A" else rt0
    if rt = "" then dualLoop env zoneID recordName ttl proxied rest createdIPv4 createdIPv6
    else
      let record := mkRecord rt recordName ip ttl proxied
      if env.upsertFails zoneID record then
        .upsert zoneID record :: dualLoop env zoneID recordName ttl proxied rest createdIPv4 createdIPv6
      else
        let createdIPv4 := if rt = "A" then true else createdIPv4
        let createdIPv6 := if rt = "AAAA" then true else createdIPv6
        if createdIPv4 && createdIPv6 then [.upsert zoneID record]
        else .upsert zoneID record :: dualLoop env zoneID recordName ttl proxied rest createdIPv4 createdIPv6

/-- The `AAAA` arm of `createOrUpdateRecords`: upsert for the first IPv6
address and stop (an upsert error is logged but the arm still ends). -/
def aaaaLoop (env : Env) (zoneID recordName : String) (ttl : Int) (proxied : Bool) :
    List String → List ProviderCall
  | [] => []
  | ip :: rest =>
    if isIPv6 ip then [.upsert zoneID (mkRecord "AAAA" recordName ip ttl proxied)]
    else aaaaLoop env zoneID recordName ttl proxied rest

/-- The `A` arm of `createOrUpdateRecords`: upsert for the first IPv4
address and stop. -/
def aLoop (env : Env) (zoneID recordName : String) (ttl : Int) (proxied : Bool) :
    List String → List ProviderCall
  | [] => []
  | ip :: rest =>
    if isIPv4 ip then [.upsert zoneID (mkRecord "A" recordName ip ttl proxied)]
    else aLoop env zoneID recordName ttl proxied rest

/-- `createOrUpdateRecords` from `pkg/controller/httproute.go`: error on an
empty address list, otherwise dispatch on the record type; upsert failures
inside the arms are logged and swallowed.  Returns the function result and
the provider calls issued. -/
def createOrUpdateRecords (env : Env) (recordType zoneID : String) (ips : List String)
    (recordName : String) (ttl : Int) (proxied : Bool) :
    Except String Unit × List ProviderCall :=
  if ips = [] then
    (.error ("no IP addresses found for record type " ++ recordType), [])
  else if recordType = "A/AAAA" then
    (.ok (), dualLoop env zoneID recordName ttl proxied ips false false)
  else if recordType = "AAAA" then
    (.ok (), aaaaLoop env zoneID recordName ttl proxied ips)
  else if recordType = "A" then
    (.ok (), aLoop env zoneID recordName ttl proxied ips)
  else (.ok (), [])

/-- `processGatewayAddressMode`, from the point where the route metadata is
in hand: the gateway pipeline result and the zone lookup come from the
environment; a fan-out error returns before the store write. -/
def processGatewayAddressMode (env : Env) (tracked : TrackedMap)
    (nspace name zoneName recordName recordType : String) (ttl : Int) (proxied : Bool)
    (gwNs gwName : String) (isReconciliationUpdate : Bool) :
    TrackedMap × List ProviderCall :=
  match env.gatewayIPs with
  | none => (tracked, [])
  | some ips =>
    let routeKey := nspace ++ "/" ++ name
    match env.zoneID zoneName with
    | none => (tracked, [.zoneLookup zoneName])
    | some zid =>
      match createOrUpdateRecords env recordType zid ips recordName ttl proxied with
      | (.error _, calls) => (tracked, .zoneLookup zoneName :: calls)
      | (.ok _, calls) =>
        (TrackedMap.update tracked routeKey
          ⟨"gateway-address", nspace, name, zoneName, recordName, recordType, ttl,
            proxied, ips, gwNs, gwName⟩,
         .zoneLookup zoneName :: calls)

/-- `processDDNSMode`: on a reconciliation trigger an unchanged address
list short-circuits before any provider interaction; otherwise zone lookup,
fan-out (an error only logged), and the store write happens regardless of
the fan-out result. -/
def processDDNSMode (env : Env) (tracked : TrackedMap)
    (nspace name zoneName recordName recordType : String) (ttl : Int) (proxied : Bool)
    (isReconciliationUpdate : Bool) : TrackedMap × List ProviderCall :=
  match env.ddnsIPs with
  | none => (tracked, [])
  | some ips =>
    let routeKey := nspace ++ "/" ++ name
    let skip := isReconciliationUpdate &&
      (match tracked routeKey with
       | some tr => ipsEqual tr.lastIPs ips
       | none => false)
    if skip then (tracked, [])
    else
      match env.zoneID zoneName with
      | none => (tracked, [.zoneLookup zoneName])
      | some zid =>
        let calls := (createOrUpdateRecords env recordType zid ips recordName ttl proxied).2
        (TrackedMap.update tracked routeKey
          ⟨"ddns", nspace, name, zoneName, recordName, recordType, ttl, proxied, ips, "", ""⟩,
         .zoneLookup zoneName :: calls)

/-- `processHTTPRoute`: annotation extraction and validation, record name
from the first hostname, zone derivation, optional field parsing with
degradation, then dispatch on the content mode.  `gwNs`/`gwName` are the
parent-gateway identity the gateway arm would derive from the route. -/
def processHTTPRoute (env : Env) (tracked : TrackedMap) (nspace name : String)
    (anns : List (String × String)) (hostnames : List String)
    (gwNs gwName : String) (isReconciliationUpdate : Bool) :
    TrackedMap × List ProviderCall :=
  let routeflareAnns := extractRouteflareAnnotations anns
  if routeflareAnns = [] then (tracked, [])
  else
    match List.lookup "content-mode" routeflareAnns with
    | none => (tracked, [])
    | some contentMode =>
      if contentMode = "" then (tracked, [])
      else
        match hostnames.head? with
        | none => (tracked, [])
        | some recordName =>
          match extractZoneFromRecordName recordName with
          | none => (tracked, [])
          | some zoneName =>
            let recordType0 := (List.lookup "type" routeflareAnns).getD ""
            let recordType := if recordType0 = "" then "A" else recordType0
            let ttl := derivedTTL ((List.lookup "ttl" routeflareAnns).getD "")
            let proxied := derivedProxied ((List.lookup "proxied" routeflareAnns).getD "")
            if contentMode = "gateway-address" then
              processGatewayAddressMode env tracked nspace name zoneName recordName
                recordType ttl proxied gwNs gwName isReconciliationUpdate
            else if contentMode = "ddns" then
              processDDNSMode env tracked nspace name zoneName recordName
                recordType ttl proxied isReconciliationUpdate
            else (tracked, [])

/-- The find-then-delete step of route deletion for one record type inside
the `A/AAAA` arm (errors logged, loop continues either way). -/
def delRecordCalls (env : Env) (zid recordName rt : String) : List ProviderCall :=
  match env.findRec zid recordName rt with
  | none => [.findRec zid recordName rt]
  | some none => [.findRec zid recordName rt]
  | some (some r) => [.findRec zid recordName rt, .deleteRec zid r.id]

/-- `processHTTPRouteDeletion`: immediate return when the deletion strategy
disables deletion; otherwise delete the record(s) per type and remove the
route from tracking — except that a single-type find error returns before
the tracking removal. -/
def processHTTPRouteDeletion (env : Env) (strategy : String) (tracked : TrackedMap)
    (nspace name : String) (anns : List (String × String)) (hostnames : List String) :
    TrackedMap × List ProviderCall :=
  if shouldDelete strategy = false then (tracked, [])
  else
    let routeflareAnns := extractRouteflareAnnotations anns
    if routeflareAnns = [] then (tracked, [])
    else
      match hostnames.head? with
      | none => (tracked, [])
      | some recordName =>
        match extractZoneFromRecordName recordName with
        | none => (tracked, [])
        | some zoneName =>
          let recordType0 := (List.lookup "type" routeflareAnns).getD ""
          let recordType := if recordType0 = "" then "A" else recordType0
          match env.zoneID zoneName with
          | none => (tracked, [.zoneLookup zoneName])
          | some zid =>
            let routeKey := nspace ++ "/" ++ name
            if recordType = "A/AAAA" then
              (TrackedMap.remove tracked routeKey,
               .zoneLookup zoneName ::
                 (delRecordCalls env zid recordName "A" ++ delRecordCalls env zid recordName "AAAA"))
            else
              match env.findRec zid recordName recordType with
              | none => (tracked, [.zoneLookup zoneName, .findRec zid recordName recordType])
              | some none =>
                (TrackedMap.remove tracked routeKey,
                 [.zoneLookup zoneName, .findRec zid recordName recordType])
              | some (some r) =>
                (TrackedMap.remove tracked routeKey,
                 [.zoneLookup zoneName, .findRec zid recordName recordType, .deleteRec zid r.id])

end Ctrl

/-! ## Basic facts about the embedded helpers -/

theorem isIPv6_not_isIPv4 (s : String) (h : isIPv6 s = true) : isIPv4 s = false := by
  unfold isIPv4 isIPv6 at *
  cases hp : GoNet.goParseIP s with
  | none => rfl
  | some b =>
    rw [hp] at h
    simp only [Option.isNone_iff_eq_none] at h
    simp [h]

theorem zip_self_all_beq (a : List String) :
    (List.zip a a).all (fun p => p.1 == p.2) = true := by
  induction a with
  | nil => rfl
  | cons x xs ih => simp [List.zip_cons_cons, ih]

theorem ipsEqual_refl (a : List String) : Ctrl.ipsEqual a a = true := by
  unfold Ctrl.ipsEqual
  simp [zip_self_all_beq]

example : isIPv4 "203.0.113.5" = true := by decide
example : isIPv6 "203.0.113.5" = false := by decide
example : isIPv6 "2001:db8::1" = true := by decide
example : isIPv4 "2001:db8::1" = false := by decide
example : isIPv4 "::ffff:192.0.2.7" = true := by decide
example : isIPv4 "not-an-ip" = false := by decide
example : isIPv6 "not-an-ip" = false := by decide
example : isIPv4 "256.0.0.1" = false := by decide
example : isIPv4 "1.2.3.04" = false := by decide
example : isIPv6 "::1" = true := by decide
example : isIPv6 ":::" = false := by decide
example : isIPv6 "1:2:3:4:5:6:7:8" = true := by decide
example : isIPv6 "1:2:3:4:5:6:7:8:9" = false := by decide
example : isIPv6 "fe80::1%eth0" = false := by decide
example : derivedTTL "bogus" = 1 := by decide
example : derivedTTL "0" = 1 := by decide
example : derivedTTL "360" = 360 := by decide
example : derivedProxied "yes" = false := by decide
example : Ctrl.extractZoneFromRecordName "api.example.com" = some "example.com" := by decide
example : Ctrl.extractZoneFromRecordName "example" = none := by decide
example : Ctrl.extractRouteflareAnnotations
    [("routeflare/content-mode", "ddns"), ("other", "x")] = [("content-mode", "ddns")] := by decide

/-! ## C1: ownership conflicts block update and delete -/

/-- C1: for every upsert or delete against a zone state holding a record of
the same name and type whose owner marker is nonempty and different from the
marker of the requested record, `UpsertRecord` and `DeleteRecord` fail with
the ownership-conflict error, the zone state is unchanged and no mutation is
issued. -/
theorem upsert_delete_ownership_conflict
    (st : List CF.DNSRecord) (freshId : String) (record existing : CF.DNSRecord)
    (hfind : CF.findRecord st record.name record.type = some existing)
    (hne : existing.comment ≠ "") (hdiff : existing.comment ≠ record.comment) :
    CF.UpsertRecord st freshId record =
      (.error (CF.ownershipConflictMsg existing.comment record.comment), st, []) ∧
    CF.DeleteRecord st record =
      (.error (CF.ownershipConflictMsg existing.comment record.comment), st, []) := by
  constructor
  · simp only [CF.UpsertRecord, hfind]
    rw [if_pos ⟨hne, hdiff⟩]
  · simp only [CF.DeleteRecord, hfind]
    rw [if_pos ⟨hne, hdiff⟩]

theorem upsert_delete_ownership_conflict_witness :
    CF.findRecord [⟨"id1", "A", "app.example.com", "1.2.3.4", 1, false, "someone-else"⟩]
        "app.example.com" "A" =
      some ⟨"id1", "A", "app.example.com", "1.2.3.4", 1, false, "someone-else"⟩ ∧
    "someone-else" ≠ "" ∧ "someone-else" ≠ "routeflare" ∧
    CF.UpsertRecord [⟨"id1", "A", "app.example.com", "1.2.3.4", 1, false, "someone-else"⟩]
        "fresh1" ⟨"", "A", "app.example.com", "5.6.7.8", 1, false, "routeflare"⟩ =
      (.error (CF.ownershipConflictMsg "someone-else" "routeflare"),
       [⟨"id1", "A", "app.example.com", "1.2.3.4", 1, false, "someone-else"⟩], []) ∧
    CF.DeleteRecord [⟨"id1", "A", "app.example.com", "1.2.3.4", 1, false, "someone-else"⟩]
        ⟨"", "A", "app.example.com", "5.6.7.8", 1, false, "routeflare"⟩ =
      (.error (CF.ownershipConflictMsg "someone-else" "routeflare"),
       [⟨"id1", "A", "app.example.com", "1.2.3.4", 1, false, "someone-else"⟩], []) :=
  ⟨by decide, by decide, by decide,
   (upsert_delete_ownership_conflict
     [⟨"id1", "A", "app.example.com", "1.2.3.4", 1, false, "someone-else"⟩] "fresh1"
     ⟨"", "A", "app.example.com", "5.6.7.8", 1, false, "routeflare"⟩
     ⟨"id1", "A", "app.example.com", "1.2.3.4", 1, false, "someone-else"⟩
     (by decide) (by decide) (by decide)).1,
   (upsert_delete_ownership_conflict
     [⟨"id1", "A", "app.example.com", "1.2.3.4", 1, false, "someone-else"⟩] "fresh1"
     ⟨"", "A", "app.example.com", "5.6.7.8", 1, false, "routeflare"⟩
     ⟨"id1", "A", "app.example.com", "1.2.3.4", 1, false, "someone-else"⟩
     (by decide) (by decide) (by decide)).2⟩

/-! ## C2: the no-op comparison and the owner marker -/

/-- C2 counterexample: an existing unowned record whose
`(type, name, content, ttl, proxied)` tuple equals the desired record still
triggers a provider-side update, because the Go struct comparison in
`updateRecord` includes the owner-marker field — the claim says the marker
is excluded from the no-op comparison and no mutation call is issued. -/
theorem upsert_marker_in_noop_comparison_counterexample :
    (⟨"id1", "A", "app.example.com", "1.2.3.4", 1, false, ""⟩ : CF.DNSRecord).type =
      (⟨"", "A", "app.example.com", "1.2.3.4", 1, false, "routeflare"⟩ : CF.DNSRecord).type ∧
    (⟨"id1", "A", "app.example.com", "1.2.3.4", 1, false, ""⟩ : CF.DNSRecord).name =
      (⟨"", "A", "app.example.com", "1.2.3.4", 1, false, "routeflare"⟩ : CF.DNSRecord).name ∧
    (⟨"id1", "A", "app.example.com", "1.2.3.4", 1, false, ""⟩ : CF.DNSRecord).content =
      (⟨"", "A", "app.example.com", "1.2.3.4", 1, false, "routeflare"⟩ : CF.DNSRecord).content ∧
    (⟨"id1", "A", "app.example.com", "1.2.3.4", 1, false, ""⟩ : CF.DNSRecord).ttl =
      (⟨"", "A", "app.example.com", "1.2.3.4", 1, false, "routeflare"⟩ : CF.DNSRecord).ttl ∧
    (⟨"id1", "A", "app.example.com", "1.2.3.4", 1, false, ""⟩ : CF.DNSRecord).proxied =
      (⟨"", "A", "app.example.com", "1.2.3.4", 1, false, "routeflare"⟩ : CF.DNSRecord).proxied ∧
    (CF.UpsertRecord [⟨"id1", "A", "app.example.com", "1.2.3.4", 1, false, ""⟩]
        "fresh1" ⟨"", "A", "app.example.com", "1.2.3.4", 1, false, "routeflare"⟩).2.2 =
      [CF.Mutation.update ⟨"id1", "A", "app.example.com", "1.2.3.4", 1, false, "routeflare"⟩] := by
  decide

/-- C2 amended: an upsert is a mutation-free success exactly when the
existing record agrees with the desired one on every field, the owner
marker included (only the provider-assigned ID is adopted); and every
create or update mutation that is issued carries the desired record's owner
marker. -/
theorem upsert_noop_and_marker_written :
    (∀ (st : List CF.DNSRecord) (freshId : String) (record existing : CF.DNSRecord),
      CF.findRecord st record.name record.type = some existing →
      existing = { record with id := existing.id } →
      CF.UpsertRecord st freshId record = (.ok existing, st, [])) ∧
    (∀ (st : List CF.DNSRecord) (freshId : String) (record : CF.DNSRecord)
        (m : CF.Mutation), m ∈ (CF.UpsertRecord st freshId record).2.2 →
      ∃ r, (m = CF.Mutation.create r ∨ m = CF.Mutation.update r) ∧
        r.comment = record.comment) := by
  constructor
  · intro st freshId record existing hfind heq
    have hc : existing.comment = record.comment := by rw [heq]
    simp only [CF.UpsertRecord, hfind]
    rw [if_neg (by rintro ⟨h1, h2⟩; exact h2 hc)]
    simp only [CF.updateRecord]
    rw [if_pos heq]
    rw [← heq]
  · intro st freshId record m hm
    rcases hf : CF.findRecord st record.name record.type with _ | ex
    · simp only [CF.UpsertRecord, hf, CF.createRecord, List.mem_singleton] at hm
      exact ⟨{ record with id := freshId }, Or.inl hm, rfl⟩
    · simp only [CF.UpsertRecord, hf] at hm
      by_cases hc : ex.comment ≠ "" ∧ ex.comment ≠ record.comment
      · rw [if_pos hc] at hm
        simp at hm
      · rw [if_neg hc] at hm
        simp only [CF.updateRecord] at hm
        by_cases he : ex = { record with id := ex.id }
        · rw [if_pos he] at hm
          simp at hm
        · rw [if_neg he] at hm
          simp only [List.mem_singleton] at hm
          exact ⟨{ record with id := ex.id }, Or.inr hm, rfl⟩

theorem upsert_noop_and_marker_written_witness :
    CF.findRecord [⟨"id1", "A", "app.example.com", "1.2.3.4", 1, false, "routeflare"⟩]
        "app.example.com" "A" =
      some ⟨"id1", "A", "app.example.com", "1.2.3.4", 1, false, "routeflare"⟩ ∧
    CF.UpsertRecord [⟨"id1", "A", "app.example.com", "1.2.3.4", 1, false, "routeflare"⟩]
        "fresh1" ⟨"", "A", "app.example.com", "1.2.3.4", 1, false, "routeflare"⟩ =
      (.ok ⟨"id1", "A", "app.example.com", "1.2.3.4", 1, false, "routeflare"⟩,
       [⟨"id1", "A", "app.example.com", "1.2.3.4", 1, false, "routeflare"⟩], []) ∧
    CF.Mutation.create ⟨"fresh2", "A", "new.example.com", "9.9.9.9", 1, false, "routeflare"⟩ ∈
      (CF.UpsertRecord [] "fresh2"
        ⟨"", "A", "new.example.com", "9.9.9.9", 1, false, "routeflare"⟩).2.2 ∧
    (∃ r, (CF.Mutation.create ⟨"fresh2", "A", "new.example.com", "9.9.9.9", 1, false, "routeflare"⟩
        = CF.Mutation.create r ∨
      CF.Mutation.create ⟨"fresh2", "A", "new.example.com", "9.9.9.9", 1, false, "routeflare"⟩
        = CF.Mutation.update r) ∧ r.comment = "routeflare") :=
  ⟨by decide,
   upsert_noop_and_marker_written.1
     [⟨"id1", "A", "app.example.com", "1.2.3.4", 1, false, "routeflare"⟩] "fresh1"
     ⟨"", "A", "app.example.com", "1.2.3.4", 1, false, "routeflare"⟩
     ⟨"id1", "A", "app.example.com", "1.2.3.4", 1, false, "routeflare"⟩
     (by decide) (by decide),
   by decide,
   upsert_noop_and_marker_written.2 [] "fresh2"
     ⟨"", "A", "new.example.com", "9.9.9.9", 1, false, "routeflare"⟩
     (CF.Mutation.create ⟨"fresh2", "A", "new.example.com", "9.9.9.9", 1, false, "routeflare"⟩)
     (by decide)⟩

/-! ## C7: TTL parsing degradation -/

/-- C7: a TTL annotation string that fails integer parsing yields the auto
default 1 at the controller call site without surfacing an error, and an
integer TTL below 1 is clamped to 1 by `ParseTTL` itself, without error. -/
theorem ttl_parse_degrades_to_auto (s : String) :
    (goAtoi s = none → derivedTTL s = 1) ∧
    (∀ n : Int, goAtoi s = some n → n < 1 →
      ParseTTL s = Except.ok 1 ∧ derivedTTL s = 1) := by
  constructor
  · intro h
    by_cases hs : s = "" ∨ s = "auto"
    · have hPT : ParseTTL s = Except.ok 1 := by
        unfold ParseTTL
        rw [if_pos hs]
      unfold derivedTTL
      simp only [hPT]
    · have hPT : ParseTTL s = Except.error ("invalid TTL: " ++ s) := by
        unfold ParseTTL
        rw [if_neg hs]
        simp only [h]
      unfold derivedTTL
      simp only [hPT]
  · intro n hn hlt
    have hs : ¬(s = "" ∨ s = "auto") := by
      rintro (rfl | rfl)
      · rw [(by decide : goAtoi "" = none)] at hn
        exact Option.noConfusion hn
      · rw [(by decide : goAtoi "auto" = none)] at hn
        exact Option.noConfusion hn
    have hPT : ParseTTL s = Except.ok 1 := by
      unfold ParseTTL
      rw [if_neg hs]
      simp only [hn]
      rw [if_pos hlt]
    refine ⟨hPT, ?_⟩
    unfold derivedTTL
    simp only [hPT]

theorem ttl_parse_degrades_to_auto_witness :
    goAtoi "20s" = none ∧ derivedTTL "20s" = 1 ∧
    goAtoi "0" = some 0 ∧ (0 : Int) < 1 ∧
    ParseTTL "0" = Except.ok 1 ∧ derivedTTL "0" = 1 :=
  ⟨by decide, (ttl_parse_degrades_to_auto "20s").1 (by decide),
   by decide, by decide,
   ((ttl_parse_degrades_to_auto "0").2 0 (by decide) (by decide)).1,
   ((ttl_parse_degrades_to_auto "0").2 0 (by decide) (by decide)).2⟩

/-! ## C10: fan-out errors only on an empty address list -/

/-- C10: `createOrUpdateRecords` returns an error exactly when the resolved
IP list is empty; for every environment — in particular one in which every
individual upsert call fails — a nonempty list yields success. -/
theorem fanout_error_iff_empty_ips (env : Ctrl.Env) (recordType zoneID : String)
    (ips : List String) (recordName : String) (ttl : Int) (proxied : Bool) :
    (Ctrl.createOrUpdateRecords env recordType zoneID ips recordName ttl proxied).1 =
      (if ips = [] then
        Except.error ("no IP addresses found for record type " ++ recordType)
      else Except.ok ()) := by
  unfold Ctrl.createOrUpdateRecords
  by_cases h : ips = []
  · rw [if_pos h, if_pos h]
  · rw [if_neg h, if_neg h]
    by_cases h1 : recordType = "A/AAAA"
    · rw [if_pos h1]
    · rw [if_neg h1]
      by_cases h2 : recordType = "AAAA"
      · rw [if_pos h2]
      · rw [if_neg h2]
        by_cases h3 : recordType = "A"
        · rw [if_pos h3]
        · rw [if_neg h3]

/-! ## C8: detector result ordering and failure condition -/

/-- C8: dual-family resolution returns the IPv4 leg result (when any)
followed by the IPv6 leg result (when any) and fails with the
no-address-detected error exactly when both legs failed; a leg whose answer
is not a syntactically valid IP literal of the requested family is a failed
query (the per-answer success test coincides with the controller's family
classifiers). -/
theorem ddns_dual_order_and_failure (a4 a6 : Option String) :
    DDNS.GetPublicIPs a4 a6 =
      (if DDNS.legResult a4 "IPv4" ++ DDNS.legResult a6 "IPv6" = [] then
        Except.error "could not detect any public IP addresses"
      else Except.ok (DDNS.legResult a4 "IPv4" ++ DDNS.legResult a6 "IPv6")) ∧
    (∀ b : String, DDNS.isOkB (DDNS.getPublicIP (some b) "IPv4") = isIPv4 b ∧
      DDNS.isOkB (DDNS.getPublicIP (some b) "IPv6") = isIPv6 b) := by
  constructor
  · unfold DDNS.GetPublicIPs DDNS.legResult DDNS.GetPublicIPv4 DDNS.GetPublicIPv6
    cases h4 : DDNS.getPublicIP a4 "IPv4" <;>
      cases h6 : DDNS.getPublicIP a6 "IPv6" <;> simp
  · intro b
    constructor
    · rcases hp : GoNet.goParseIP b with _ | ip
      · simp [DDNS.getPublicIP, DDNS.isOkB, isIPv4, hp]
      · rcases ht : GoNet.to4 ip with _ | b4 <;>
          simp [DDNS.getPublicIP, DDNS.isOkB, isIPv4, hp, ht]
    · rcases hp : GoNet.goParseIP b with _ | ip
      · simp [DDNS.getPublicIP, DDNS.isOkB, isIPv6, hp]
      · rcases ht : GoNet.to4 ip with _ | b4 <;>
          simp [DDNS.getPublicIP, DDNS.isOkB, isIPv6, hp, ht]

/-! ## C3: dual-family fan-out -/

/-- C3 counterexample: with the resolved list
`[198.51.100.7, 2001:db8::1, 198.51.100.8]` and an environment in which the
upsert for `198.51.100.7` fails, both an A and an AAAA operation have been
attempted once after the first two addresses, yet the fan-out issues a third
upsert (it stops only once both families have succeeded) — the claim, which
stops as soon as both families have been attempted once, bounds this trace
by two calls. -/
theorem dual_fanout_attempt_stop_counterexample :
    (Ctrl.createOrUpdateRecords
        ⟨fun _ => some "zone1", fun _ r => r.content == "198.51.100.7", none, none,
         fun _ _ _ => none, fun _ => false⟩
        "A/AAAA" "zone1" ["198.51.100.7", "2001:db8::1", "198.51.100.8"]
        "api.example.com" 1 false).2 =
      [Ctrl.ProviderCall.upsert "zone1" (Ctrl.mkRecord "A" "api.example.com" "198.51.100.7" 1 false),
       Ctrl.ProviderCall.upsert "zone1" (Ctrl.mkRecord "AAAA" "api.example.com" "2001:db8::1" 1 false),
       Ctrl.ProviderCall.upsert "zone1" (Ctrl.mkRecord "A" "api.example.com" "198.51.100.8" 1 false)] ∧
    2 < (Ctrl.createOrUpdateRecords
        ⟨fun _ => some "zone1", fun _ r => r.content == "198.51.100.7", none, none,
         fun _ _ _ => none, fun _ => false⟩
        "A/AAAA" "zone1" ["198.51.100.7", "2001:db8::1", "198.51.100.8"]
        "api.example.com" 1 false).2.length := by
  decide

/-- C3 amended: the dual-family fan-out iterates the addresses in order,
classifies each by family, upserts the corresponding single-type record,
and stops as soon as both an A and an AAAA operation have succeeded once
(a failed upsert does not count and the next address of that family is
attempted); in particular, for a list of exactly one IPv4 and one IPv6
literal, exactly one A and one AAAA upsert are issued, in list order, each
carrying its own family's address — regardless of upsert outcomes. -/
theorem dual_fanout_first_of_each_family :
    (∀ (env : Ctrl.Env) (zid nm : String) (ttl : Int) (px : Bool) (ip4 ip6 : String),
      isIPv4 ip4 = true → isIPv6 ip6 = true →
      Ctrl.createOrUpdateRecords env "A/AAAA" zid [ip4, ip6] nm ttl px =
        (.ok (), [.upsert zid (Ctrl.mkRecord "A" nm ip4 ttl px),
                  .upsert zid (Ctrl.mkRecord "AAAA" nm ip6 ttl px)]) ∧
      Ctrl.createOrUpdateRecords env "A/AAAA" zid [ip6, ip4] nm ttl px =
        (.ok (), [.upsert zid (Ctrl.mkRecord "AAAA" nm ip6 ttl px),
                  .upsert zid (Ctrl.mkRecord "A" nm ip4 ttl px)])) ∧
    (∀ (env : Ctrl.Env) (zid nm : String) (ttl : Int) (px : Bool) (ip4 ip6 : String)
        (rest : List String),
      isIPv4 ip4 = true → isIPv6 ip6 = true →
      env.upsertFails zid (Ctrl.mkRecord "A" nm ip4 ttl px) = false →
      env.upsertFails zid (Ctrl.mkRecord "AAAA" nm ip6 ttl px) = false →
      Ctrl.dualLoop env zid nm ttl px (ip4 :: ip6 :: rest) false false =
        [.upsert zid (Ctrl.mkRecord "A" nm ip4 ttl px),
         .upsert zid (Ctrl.mkRecord "AAAA" nm ip6 ttl px)] ∧
      Ctrl.dualLoop env zid nm ttl px (ip6 :: ip4 :: rest) false false =
        [.upsert zid (Ctrl.mkRecord "AAAA" nm ip6 ttl px),
         .upsert zid (Ctrl.mkRecord "A" nm ip4 ttl px)]) := by
  constructor
  · intro env zid nm ttl px ip4 ip6 h4 h6
    have h64 : isIPv4 ip6 = false := isIPv6_not_isIPv4 ip6 h6
    constructor
    · simp only [Ctrl.createOrUpdateRecords]
      rw [if_neg (by simp)]
      simp only [if_true]
      by_cases hf1 : env.upsertFails zid (Ctrl.mkRecord "A" nm ip4 ttl px) <;>
        by_cases hf2 : env.upsertFails zid (Ctrl.mkRecord "AAAA" nm ip6 ttl px) <;>
          simp [Ctrl.dualLoop, h4, h6, h64, hf1, hf2]
    · simp only [Ctrl.createOrUpdateRecords]
      rw [if_neg (by simp)]
      simp only [if_true]
      by_cases hf1 : env.upsertFails zid (Ctrl.mkRecord "A" nm ip4 ttl px) <;>
        by_cases hf2 : env.upsertFails zid (Ctrl.mkRecord "AAAA" nm ip6 ttl px) <;>
          simp [Ctrl.dualLoop, h4, h6, h64, hf1, hf2]
  · intro env zid nm ttl px ip4 ip6 rest h4 h6 hf1 hf2
    have h64 : isIPv4 ip6 = false := isIPv6_not_isIPv4 ip6 h6
    constructor
    · simp [Ctrl.dualLoop, h4, h6, h64, hf1, hf2]
    · simp [Ctrl.dualLoop, h4, h6, h64, hf1, hf2]

theorem dual_fanout_first_of_each_family_witness :
    isIPv4 "198.51.100.7" = true ∧ isIPv6 "2001:db8::1" = true ∧
    Ctrl.createOrUpdateRecords
        ⟨fun _ => some "zone1", fun _ _ => false, none, none, fun _ _ _ => none, fun _ => false⟩
        "A/AAAA" "zone1" ["198.51.100.7", "2001:db8::1"] "api.example.com" 1 false =
      (.ok (), [.upsert "zone1" (Ctrl.mkRecord "A" "api.example.com" "198.51.100.7" 1 false),
                .upsert "zone1" (Ctrl.mkRecord "AAAA" "api.example.com" "2001:db8::1" 1 false)]) ∧
    Ctrl.dualLoop
        ⟨fun _ => some "zone1", fun _ _ => false, none, none, fun _ _ _ => none, fun _ => false⟩
        "zone1" "api.example.com" 1 false
        ["198.51.100.7", "2001:db8::1", "198.51.100.8"] false false =
      [.upsert "zone1" (Ctrl.mkRecord "A" "api.example.com" "198.51.100.7" 1 false),
       .upsert "zone1" (Ctrl.mkRecord "AAAA" "api.example.com" "2001:db8::1" 1 false)] :=
  ⟨by decide, by decide,
   (dual_fanout_first_of_each_family.1
     ⟨fun _ => some "zone1", fun _ _ => false, none, none, fun _ _ _ => none, fun _ => false⟩
     "zone1" "api.example.com" 1 false "198.51.100.7" "2001:db8::1"
     (by decide) (by decide)).1,
   (dual_fanout_first_of_each_family.2
     ⟨fun _ => some "zone1", fun _ _ => false, none, none, fun _ _ _ => none, fun _ => false⟩
     "zone1" "api.example.com" 1 false "198.51.100.7" "2001:db8::1" ["198.51.100.8"]
     (by decide) (by decide) (by decide) (by decide)).1⟩

/-! ## C5: routes without a content mode are ignored -/

/-- C5: when the routeflare-scoped annotation set has no `content-mode` key
or its value is empty, processing the route issues no provider call and
returns the tracked-route store unchanged; since the store is returned
unchanged and the function is a pure function of its inputs, processing the
same route again is the identical no-op. -/
theorem missing_content_mode_is_noop
    (env : Ctrl.Env) (tracked : Ctrl.TrackedMap) (nspace name : String)
    (anns : List (String × String)) (hostnames : List String)
    (gwNs gwName : String) (flag : Bool)
    (h : List.lookup "content-mode" (Ctrl.extractRouteflareAnnotations anns) = none ∨
      List.lookup "content-mode" (Ctrl.extractRouteflareAnnotations anns) = some "") :
    Ctrl.processHTTPRoute env tracked nspace name anns hostnames gwNs gwName flag =
      (tracked, []) := by
  unfold Ctrl.processHTTPRoute
  by_cases he : Ctrl.extractRouteflareAnnotations anns = []
  · rw [if_pos he]
  · rw [if_neg he]
    rcases h with h | h <;> simp [h]

theorem missing_content_mode_is_noop_witness :
    List.lookup "content-mode"
      (Ctrl.extractRouteflareAnnotations [("routeflare/type", "A")]) = none ∧
    Ctrl.processHTTPRoute
      ⟨fun _ => some "zone1", fun _ _ => false, some ["203.0.113.5"], some ["198.51.100.7"],
       fun _ _ _ => none, fun _ => false⟩
      (fun _ => none) "web" "app1" [("routeflare/type", "A")] ["api.example.com"]
      "gw-ns" "gw" false = ((fun _ => none), []) :=
  ⟨by decide,
   missing_content_mode_is_noop
     ⟨fun _ => some "zone1", fun _ _ => false, some ["203.0.113.5"], some ["198.51.100.7"],
      fun _ _ _ => none, fun _ => false⟩
     (fun _ => none) "web" "app1" [("routeflare/type", "A")] ["api.example.com"]
     "gw-ns" "gw" false (Or.inl (by decide))⟩

/-! ## C6: deletion with the upsert-only strategy -/

/-- C6 counterexample: a deletion event handled under the upsert-only
strategy issues zero provider calls but also leaves the tracked-route entry
in place (the handler returns before the tracking removal at its end) — the
claim says the entry is removed. -/
theorem deletion_disabled_tracked_entry_counterexample :
    (Ctrl.processHTTPRouteDeletion
        ⟨fun _ => some "zone1", fun _ _ => false, none, none, fun _ _ _ => none, fun _ => false⟩
        "upsert-only"
        (Ctrl.TrackedMap.update (fun _ => none) "web/app1"
          ⟨"gateway-address", "web", "app1", "example.com", "api.example.com", "A", 1, false,
           ["198.51.100.7"], "gw-ns", "gw"⟩)
        "web" "app1" [("routeflare/content-mode", "gateway-address")] ["api.example.com"]).2 =
      [] ∧
    ((Ctrl.processHTTPRouteDeletion
        ⟨fun _ => some "zone1", fun _ _ => false, none, none, fun _ _ _ => none, fun _ => false⟩
        "upsert-only"
        (Ctrl.TrackedMap.update (fun _ => none) "web/app1"
          ⟨"gateway-address", "web", "app1", "example.com", "api.example.com", "A", 1, false,
           ["198.51.100.7"], "gw-ns", "gw"⟩)
        "web" "app1" [("routeflare/content-mode", "gateway-address")]
        ["api.example.com"]).1 "web/app1").isSome = true := by
  constructor
  · rfl
  · rfl

/-- C6 amended: a deletion event handled while the deletion strategy
disables deletion is a complete no-op: zero provider calls of any kind and
the tracked-route store returned unchanged; the stale entry is removed later
by the periodic sweep when the route is gone from the cluster view, not by
the deletion handler. -/
theorem deletion_disabled_full_noop
    (env : Ctrl.Env) (strategy : String) (tracked : Ctrl.TrackedMap)
    (nspace name : String) (anns : List (String × String)) (hostnames : List String)
    (h : Ctrl.shouldDelete strategy = false) :
    Ctrl.processHTTPRouteDeletion env strategy tracked nspace name anns hostnames =
      (tracked, []) := by
  unfold Ctrl.processHTTPRouteDeletion
  rw [if_pos h]

theorem deletion_disabled_full_noop_witness :
    Ctrl.shouldDelete "upsert-only" = false ∧
    Ctrl.processHTTPRouteDeletion
      ⟨fun _ => some "zone1", fun _ _ => false, none, none, fun _ _ _ => none, fun _ => false⟩
      "upsert-only" (fun _ => none) "web" "app1"
      [("routeflare/content-mode", "gateway-address")] ["api.example.com"] =
      ((fun _ => none), []) :=
  ⟨by decide,
   deletion_disabled_full_noop
     ⟨fun _ => some "zone1", fun _ _ => false, none, none, fun _ _ _ => none, fun _ => false⟩
     "upsert-only" (fun _ => none) "web" "app1"
     [("routeflare/content-mode", "gateway-address")] ["api.example.com"] (by decide)⟩

/-! ## Shared helper: the DDNS write path -/

theorem ddns_write_of_not_skip
    (env : Ctrl.Env) (tracked : Ctrl.TrackedMap)
    (nspace name zoneName recordName recordType : String) (ttl : Int) (proxied : Bool)
    (flag : Bool) (ips : List String) (zid : String)
    (hips : env.ddnsIPs = some ips) (hzid : env.zoneID zoneName = some zid)
    (hns : flag = true → ∀ tr, tracked (nspace ++ "/" ++ name) = some tr →
      Ctrl.ipsEqual tr.lastIPs ips = false) :
    Ctrl.processDDNSMode env tracked nspace name zoneName recordName recordType
        ttl proxied flag =
      (Ctrl.TrackedMap.update tracked (nspace ++ "/" ++ name)
        ⟨"ddns", nspace, name, zoneName, recordName, recordType, ttl, proxied, ips, "", ""⟩,
       Ctrl.ProviderCall.zoneLookup zoneName ::
         (Ctrl.createOrUpdateRecords env recordType zid ips recordName ttl proxied).2) := by
  simp only [Ctrl.processDDNSMode, hips]
  cases hfl : flag with
  | false =>
    simp only [Bool.false_and, Bool.false_eq_true, if_false, hzid]
  | true =>
    rcases htr : tracked (nspace ++ "/" ++ name) with _ | tr
    · simp only [htr, Bool.and_false, Bool.false_eq_true, if_false, hzid]
    · have hne := hns hfl tr htr
      simp only [htr, hne, Bool.and_false, Bool.false_eq_true, if_false, hzid]

/-! ## C4: the DDNS sweep short-circuit -/

/-- C4: on a periodic-reconciliation trigger of a tracked DDNS route whose
newly resolved address sequence equals the tracked one element-wise, the
processor issues no provider call at all and leaves the store unchanged; if
the sequences differ (and the zone resolves) the provider fan-out runs; the
gateway-address processor has no such short-circuit — on any trigger kind
and any tracked state it performs the zone lookup and runs the fan-out. -/
theorem ddns_sweep_short_circuit_gateway_always_applies :
    (∀ (env : Ctrl.Env) (tracked : Ctrl.TrackedMap)
        (nspace name zoneName recordName recordType : String) (ttl : Int) (proxied : Bool)
        (ips : List String) (tr : Ctrl.TrackedRoute),
      env.ddnsIPs = some ips →
      tracked (nspace ++ "/" ++ name) = some tr →
      Ctrl.ipsEqual tr.lastIPs ips = true →
      Ctrl.processDDNSMode env tracked nspace name zoneName recordName recordType
          ttl proxied true = (tracked, [])) ∧
    (∀ (env : Ctrl.Env) (tracked : Ctrl.TrackedMap)
        (nspace name zoneName recordName recordType : String) (ttl : Int) (proxied : Bool)
        (ips : List String) (tr : Ctrl.TrackedRoute) (zid : String),
      env.ddnsIPs = some ips →
      tracked (nspace ++ "/" ++ name) = some tr →
      Ctrl.ipsEqual tr.lastIPs ips = false →
      env.zoneID zoneName = some zid →
      (Ctrl.processDDNSMode env tracked nspace name zoneName recordName recordType
          ttl proxied true).2 =
        Ctrl.ProviderCall.zoneLookup zoneName ::
          (Ctrl.createOrUpdateRecords env recordType zid ips recordName ttl proxied).2) ∧
    (∀ (env : Ctrl.Env) (tracked : Ctrl.TrackedMap)
        (nspace name zoneName recordName recordType : String) (ttl : Int) (proxied : Bool)
        (gwNs gwName : String) (flag : Bool) (ips : List String) (zid : String),
      env.gatewayIPs = some ips →
      env.zoneID zoneName = some zid →
      (Ctrl.processGatewayAddressMode env tracked nspace name zoneName recordName
          recordType ttl proxied gwNs gwName flag).2 =
        Ctrl.ProviderCall.zoneLookup zoneName ::
          (Ctrl.createOrUpdateRecords env recordType zid ips recordName ttl proxied).2) := by
  refine ⟨?_, ?_, ?_⟩
  · intro env tracked nspace name zoneName recordName recordType ttl proxied ips tr
      hips htr heq
    simp only [Ctrl.processDDNSMode, hips, htr, heq, Bool.true_and, if_true]
  · intro env tracked nspace name zoneName recordName recordType ttl proxied ips tr zid
      hips htr hne hzid
    rw [ddns_write_of_not_skip env tracked nspace name zoneName recordName recordType
      ttl proxied true ips zid hips hzid (fun _ tr2 htr2 => by
        rw [htr] at htr2
        cases htr2
        exact hne)]
  · intro env tracked nspace name zoneName recordName recordType ttl proxied gwNs gwName
      flag ips zid hips hzid
    simp only [Ctrl.processGatewayAddressMode, hips, hzid]
    rcases hc : Ctrl.createOrUpdateRecords env recordType zid ips recordName ttl proxied
      with ⟨res, calls⟩
    cases res <;> simp

theorem ddns_sweep_short_circuit_gateway_always_applies_witness :
    (⟨fun _ => some "zone1", fun _ _ => false, some ["203.0.113.5"], none,
        fun _ _ _ => none, fun _ => false⟩ : Ctrl.Env).ddnsIPs = some ["203.0.113.5"] ∧
    Ctrl.TrackedMap.update (fun _ => none) "web/app1"
      ⟨"ddns", "web", "app1", "example.com", "api.example.com", "A", 1, false,
       ["203.0.113.5"], "", ""⟩ ("web" ++ "/" ++ "app1") =
      some ⟨"ddns", "web", "app1", "example.com", "api.example.com", "A", 1, false,
       ["203.0.113.5"], "", ""⟩ ∧
    Ctrl.ipsEqual ["203.0.113.5"] ["203.0.113.5"] = true ∧
    Ctrl.processDDNSMode
      ⟨fun _ => some "zone1", fun _ _ => false, some ["203.0.113.5"], none,
       fun _ _ _ => none, fun _ => false⟩
      (Ctrl.TrackedMap.update (fun _ => none) "web/app1"
        ⟨"ddns", "web", "app1", "example.com", "api.example.com", "A", 1, false,
         ["203.0.113.5"], "", ""⟩)
      "web" "app1" "example.com" "api.example.com" "A" 1 false true =
      (Ctrl.TrackedMap.update (fun _ => none) "web/app1"
        ⟨"ddns", "web", "app1", "example.com", "api.example.com", "A", 1, false,
         ["203.0.113.5"], "", ""⟩, []) ∧
    Ctrl.ipsEqual ["203.0.113.5"] ["203.0.113.9"] = false ∧
    (Ctrl.processDDNSMode
      ⟨fun _ => some "zone1", fun _ _ => false, some ["203.0.113.9"], none,
       fun _ _ _ => none, fun _ => false⟩
      (Ctrl.TrackedMap.update (fun _ => none) "web/app1"
        ⟨"ddns", "web", "app1", "example.com", "api.example.com", "A", 1, false,
         ["203.0.113.5"], "", ""⟩)
      "web" "app1" "example.com" "api.example.com" "A" 1 false true).2 =
      Ctrl.ProviderCall.zoneLookup "example.com" ::
        (Ctrl.createOrUpdateRecords
          ⟨fun _ => some "zone1", fun _ _ => false, some ["203.0.113.9"], none,
           fun _ _ _ => none, fun _ => false⟩
          "A" "zone1" ["203.0.113.9"] "api.example.com" 1 false).2 ∧
    (Ctrl.processGatewayAddressMode
      ⟨fun _ => some "zone1", fun _ _ => false, none, some ["198.51.100.7"],
       fun _ _ _ => none, fun _ => false⟩
      (fun _ => none) "web" "app1" "example.com" "api.example.com" "A" 1 false
      "gw-ns" "gw" true).2 =
      Ctrl.ProviderCall.zoneLookup "example.com" ::
        (Ctrl.createOrUpdateRecords
          ⟨fun _ => some "zone1", fun _ _ => false, none, some ["198.51.100.7"],
           fun _ _ _ => none, fun _ => false⟩
          "A" "zone1" ["198.51.100.7"] "api.example.com" 1 false).2 :=
  ⟨rfl, by decide, by decide,
   ddns_sweep_short_circuit_gateway_always_applies.1
     ⟨fun _ => some "zone1", fun _ _ => false, some ["203.0.113.5"], none,
      fun _ _ _ => none, fun _ => false⟩
     (Ctrl.TrackedMap.update (fun _ => none) "web/app1"
       ⟨"ddns", "web", "app1", "example.com", "api.example.com", "A", 1, false,
        ["203.0.113.5"], "", ""⟩)
     "web" "app1" "example.com" "api.example.com" "A" 1 false ["203.0.113.5"]
     ⟨"ddns", "web", "app1", "example.com", "api.example.com", "A", 1, false,
      ["203.0.113.5"], "", ""⟩ rfl (by decide) (by decide),
   by decide,
   ddns_sweep_short_circuit_gateway_always_applies.2.1
     ⟨fun _ => some "zone1", fun _ _ => false, some ["203.0.113.9"], none,
      fun _ _ _ => none, fun _ => false⟩
     (Ctrl.TrackedMap.update (fun _ => none) "web/app1"
       ⟨"ddns", "web", "app1", "example.com", "api.example.com", "A", 1, false,
        ["203.0.113.5"], "", ""⟩)
     "web" "app1" "example.com" "api.example.com" "A" 1 false ["203.0.113.9"]
     ⟨"ddns", "web", "app1", "example.com", "api.example.com", "A", 1, false,
      ["203.0.113.5"], "", ""⟩ "zone1" rfl (by decide) (by decide) rfl,
   ddns_sweep_short_circuit_gateway_always_applies.2.2
     ⟨fun _ => some "zone1", fun _ _ => false, none, some ["198.51.100.7"],
      fun _ _ _ => none, fun _ => false⟩
     (fun _ => none) "web" "app1" "example.com" "api.example.com" "A" 1 false
     "gw-ns" "gw" true ["198.51.100.7"] "zone1" rfl rfl⟩

/-! ## C9: store updates on apply failure differ by content mode -/

/-- C9: when the provider fan-out fails, gateway-address processing returns
before the store write, leaving the tracked entry unchanged, while DDNS
processing overwrites the entry with the newly resolved addresses no matter
what the fan-out did; consequently a DDNS apply — even one in which every
upsert call failed — followed by a periodic-reconciliation trigger that
resolves the same addresses issues no provider call on that next sweep. -/
theorem apply_error_store_asymmetry :
    (∀ (env : Ctrl.Env) (tracked : Ctrl.TrackedMap)
        (nspace name zoneName recordName recordType : String) (ttl : Int) (proxied : Bool)
        (gwNs gwName : String) (flag : Bool) (ips : List String) (zid : String) (e : String),
      env.gatewayIPs = some ips →
      env.zoneID zoneName = some zid →
      (Ctrl.createOrUpdateRecords env recordType zid ips recordName ttl proxied).1 =
        Except.error e →
      (Ctrl.processGatewayAddressMode env tracked nspace name zoneName recordName
          recordType ttl proxied gwNs gwName flag).1 = tracked) ∧
    (∀ (env : Ctrl.Env) (tracked : Ctrl.TrackedMap)
        (nspace name zoneName recordName recordType : String) (ttl : Int) (proxied : Bool)
        (flag : Bool) (ips : List String) (zid : String),
      env.ddnsIPs = some ips →
      env.zoneID zoneName = some zid →
      (flag = true → ∀ tr, tracked (nspace ++ "/" ++ name) = some tr →
        Ctrl.ipsEqual tr.lastIPs ips = false) →
      (Ctrl.processDDNSMode env tracked nspace name zoneName recordName recordType
          ttl proxied flag).1 =
        Ctrl.TrackedMap.update tracked (nspace ++ "/" ++ name)
          ⟨"ddns", nspace, name, zoneName, recordName, recordType, ttl, proxied,
           ips, "", ""⟩) ∧
    (∀ (env : Ctrl.Env) (tracked : Ctrl.TrackedMap)
        (nspace name zoneName recordName recordType : String) (ttl : Int) (proxied : Bool)
        (ips : List String) (zid : String),
      env.ddnsIPs = some ips →
      env.zoneID zoneName = some zid →
      (Ctrl.processDDNSMode env
        (Ctrl.processDDNSMode env tracked nspace name zoneName recordName recordType
          ttl proxied false).1
        nspace name zoneName recordName recordType ttl proxied true).2 = []) := by
  refine ⟨?_, ?_, ?_⟩
  · intro env tracked nspace name zoneName recordName recordType ttl proxied gwNs gwName
      flag ips zid e hips hzid herr
    simp only [Ctrl.processGatewayAddressMode, hips, hzid]
    rcases hc : Ctrl.createOrUpdateRecords env recordType zid ips recordName ttl proxied
      with ⟨res, calls⟩
    rw [hc] at herr
    simp only [] at herr
    subst herr
    simp
  · intro env tracked nspace name zoneName recordName recordType ttl proxied flag ips zid
      hips hzid hns
    rw [ddns_write_of_not_skip env tracked nspace name zoneName recordName recordType
      ttl proxied flag ips zid hips hzid hns]
  · intro env tracked nspace name zoneName recordName recordType ttl proxied ips zid
      hips hzid
    rw [ddns_write_of_not_skip env tracked nspace name zoneName recordName recordType
      ttl proxied false ips zid hips hzid (fun h => nomatch h)]
    simp only [Ctrl.processDDNSMode, hips]
    simp [Ctrl.TrackedMap.update, ipsEqual_refl]

theorem apply_error_store_asymmetry_witness :
    (⟨fun _ => some "zone1", fun _ _ => true, none, some [],
        fun _ _ _ => none, fun _ => false⟩ : Ctrl.Env).gatewayIPs = some [] ∧
    (Ctrl.createOrUpdateRecords
        ⟨fun _ => some "zone1", fun _ _ => true, none, some [],
         fun _ _ _ => none, fun _ => false⟩
        "A" "zone1" [] "api.example.com" 1 false).1 =
      Except.error "no IP addresses found for record type A" ∧
    (Ctrl.processGatewayAddressMode
        ⟨fun _ => some "zone1", fun _ _ => true, none, some [],
         fun _ _ _ => none, fun _ => false⟩
        (fun _ => none) "web" "app1" "example.com" "api.example.com" "A" 1 false
        "gw-ns" "gw" false).1 = (fun _ => none) ∧
    (Ctrl.processDDNSMode
        ⟨fun _ => some "zone1", fun _ _ => true, some ["203.0.113.9"], none,
         fun _ _ _ => none, fun _ => false⟩
        (fun _ => none) "web" "app1" "example.com" "api.example.com" "A" 1 false
        false).1 =
      Ctrl.TrackedMap.update (fun _ => none) ("web" ++ "/" ++ "app1")
        ⟨"ddns", "web", "app1", "example.com", "api.example.com", "A", 1, false,
         ["203.0.113.9"], "", ""⟩ ∧
    (Ctrl.processDDNSMode
        ⟨fun _ => some "zone1", fun _ _ => true, some ["203.0.113.9"], none,
         fun _ _ _ => none, fun _ => false⟩
        (Ctrl.processDDNSMode
          ⟨fun _ => some "zone1", fun _ _ => true, some ["203.0.113.9"], none,
           fun _ _ _ => none, fun _ => false⟩
          (fun _ => none) "web" "app1" "example.com" "api.example.com" "A" 1 false
          false).1
        "web" "app1" "example.com" "api.example.com" "A" 1 false true).2 = [] :=
  ⟨rfl, rfl,
   apply_error_store_asymmetry.1
     ⟨fun _ => some "zone1", fun _ _ => true, none, some [],
      fun _ _ _ => none, fun _ => false⟩
     (fun _ => none) "web" "app1" "example.com" "api.example.com" "A" 1 false
     "gw-ns" "gw" false [] "zone1" "no IP addresses found for record type A"
     rfl rfl rfl,
   apply_error_store_asymmetry.2.1
     ⟨fun _ => some "zone1", fun _ _ => true, some ["203.0.113.9"], none,
      fun _ _ _ => none, fun _ => false⟩
     (fun _ => none) "web" "app1" "example.com" "api.example.com" "A" 1 false
     false ["203.0.113.9"] "zone1" rfl rfl (fun h => nomatch h),
   apply_error_store_asymmetry.2.2
     ⟨fun _ => some "zone1", fun _ _ => true, some ["203.0.113.9"], none,
      fun _ _ _ => none, fun _ => false⟩
     (fun _ => none) "web" "app1" "example.com" "api.example.com" "A" 1 false
     ["203.0.113.9"] "zone1" rfl rfl⟩
